import Mathlib

/-!
# SpaceFinders — verification of the reservation lifecycle engine

Shallow embedding of the date-range validation, pricing, reservation stepper,
two-phase pay-then-reserve protocol, and booking classification logic of the
SpaceFinders Angular client, together with theorems settling the frozen claims
about this code.

Modelling conventions:

* Calendar dates carried by bookings and forms are date-only strings in the
  source (e.g. "2025-06-05"); `new Date(s)` parses them to a timestamp and
  `setHours(0,0,0,0)` truncates to the start of day.  All comparisons in the
  classifiers and validators happen at day granularity, so these values are
  embedded as integer day indices (`Int`), with "now truncated to the start of
  day" another such integer.  Millisecond timestamps (used by
  `calculateNights`) are embedded as `Int` milliseconds.
* `subscribe` callbacks are embedded by passing the outcome of each external
  call as an explicit argument and computing the resulting UI state; the
  `setTimeout` auto-clear of messages is outside the model (it only erases a
  message later, it never changes which message was surfaced).
* JavaScript `Array.prototype.sort` with a numeric comparator is embedded as
  `List.insertionSort` over the corresponding relation (both are stable sorts
  of a total preorder, hence produce the same list).
-/

namespace SpaceFinders

/-! ## Date-range validation — `property-details.component.ts`, `dateRangeValidator` -/

/-- The two violations the validator can report: `invalidDateRange`
(checkout ≤ checkin) and `pastDate` (check-in before today's start of day). -/
inductive DateRangeIssue where
  | invalidDateRange
  | pastDate
deriving DecidableEq, Repr

namespace PropertyDetails

/-- `dateRangeValidator` of `property-details.component.ts` (lines 155-170).
Returns `none` when a date is missing or the pair is acceptable, otherwise the
single error object built by the first failing check:

    if (!cin || !cout) return null;
    if (checkout <= checkin) return { invalidDateRange: true };
    if (checkin < today) return { pastDate: true };
    return null;
-/
def dateRangeValidator (cin cout : Option Int) (todayStart : Int) :
    Option DateRangeIssue :=
  match cin, cout with
  | some checkin, some checkout =>
    if checkout ≤ checkin then some DateRangeIssue.invalidDateRange
    else if checkin < todayStart then some DateRangeIssue.pastDate
    else none
  | _, _ => none

/-- `1000 * 60 * 60 * 24`, the divisor used by `calculateNights`. -/
def msPerDay : Int := 1000 * 60 * 60 * 24

/-- `calculateNights` of `property-details.component.ts` (lines 352-357):
`Math.ceil((checkout.getTime() - checkin.getTime()) / 86400000)`.
The ceiling of the exact quotient is `-⌊-diff / msPerDay⌋`, written with
`Int.fdiv` (floor division). -/
def calculateNights (checkinMs checkoutMs : Int) : Int :=
  -(Int.fdiv (-(checkoutMs - checkinMs)) msPerDay)

/-- `calculateTotalPrice` of `property-details.component.ts` (lines 359-361). -/
def calculateTotalPrice (pricePerDay nights : Int) : Int :=
  pricePerDay * nights

/-- The night count as the specification words it: the ceiling (over ℚ) of the
millisecond difference divided by 86 400 000.  Stated from the spec, to be
compared with `calculateNights`. -/
def nightsCeilSpec (checkinMs checkoutMs : Int) : Int :=
  ⌈((checkoutMs - checkinMs : ℚ)) / (msPerDay : ℚ)⌉

/-! ## Reservation stepper — `property-details.component.ts`, `nextStep` -/

/-- The value of `bookingForm`: two optional dates (day indices) and the two
add-on flags. -/
structure BookingFormValue where
  checkinDate : Option Int
  checkoutDate : Option Int
  hasExtraCot : Bool
  hasDeepClean : Bool
deriving DecidableEq, Repr

/-- The stepper-relevant state of `PropertyDetailsComponent`:
`currentStep` (0 = Dates, 1 = Services, 2 = Confirm), the form value and the
two message fields. -/
structure StepperState where
  currentStep : Nat
  form : BookingFormValue
  errorMessage : String
  successMessage : String
deriving DecidableEq, Repr

/-- `showError` of `property-details.component.ts`: sets `errorMessage`,
clears `successMessage` (the 5-second auto-clear timer is outside the model). -/
def showError (st : StepperState) (message : String) : StepperState :=
  { st with errorMessage := message, successMessage := "" }

/-- `nextStep` of `property-details.component.ts` (lines 230-265).  The Bool
result records whether `submitBooking()` was triggered (step 2).  At step 0 the
method reads `bookingForm.errors`, which Angular keeps equal to
`dateRangeValidator` applied to the current form value. -/
def nextStep (st : StepperState) (todayStart : Int) : StepperState × Bool :=
  if st.currentStep = 0 then
    match st.form.checkinDate, st.form.checkoutDate with
    | none, _ =>
      (showError st "Please select both check-in and check-out dates", false)
    | some _, none =>
      (showError st "Please select both check-in and check-out dates", false)
    | some cin, some cout =>
      match dateRangeValidator (some cin) (some cout) todayStart with
      | some DateRangeIssue.invalidDateRange =>
        (showError st "Check-out date must be after check-in date", false)
      | some DateRangeIssue.pastDate =>
        (showError st "Check-in date cannot be in the past", false)
      | none => ({ st with currentStep := 1 }, false)
  else if st.currentStep = 1 then ({ st with currentStep := 2 }, false)
  else if st.currentStep = 2 then (st, true)
  else (st, false)

end PropertyDetails

/-! ## Bookings and classification -/

/-- The classification-relevant fields of a `BookingResponse` record.
`isBookingStatus` is a plain string in the source, compared against the
literals CONFIRMED / PENDING / CANCELLED / COMPLETED; dates are day indices. -/
structure Booking where
  bookingId : Int
  checkinDate : Int
  checkoutDate : Int
  isBookingStatus : String
  isPaymentStatus : Bool
deriving DecidableEq, Repr

/-- The three temporal buckets of the bookings view. -/
inductive Bucket where
  | upcoming
  | current
  | past
deriving DecidableEq, Repr

/-- Comparator `(a, b) => new Date(a.checkinDate).getTime() - new Date(b.checkinDate).getTime()`:
ascending by check-in date. -/
def checkinAsc (a b : Booking) : Prop := a.checkinDate ≤ b.checkinDate

/-- Comparator `(a, b) => new Date(b.checkinDate).getTime() - new Date(a.checkinDate).getTime()`:
descending by check-in date. -/
def checkinDesc (a b : Booking) : Prop := b.checkinDate ≤ a.checkinDate

instance : DecidableRel checkinAsc :=
  fun a b => inferInstanceAs (Decidable (a.checkinDate ≤ b.checkinDate))

instance : DecidableRel checkinDesc :=
  fun a b => inferInstanceAs (Decidable (b.checkinDate ≤ a.checkinDate))

instance : IsTotal Booking checkinAsc :=
  ⟨fun a b => Int.le_total a.checkinDate b.checkinDate⟩

instance : IsTotal Booking checkinDesc :=
  ⟨fun a b => (Int.le_total b.checkinDate a.checkinDate).symm.symm⟩

instance : IsTrans Booking checkinAsc :=
  ⟨fun _ _ _ h h' => le_trans h h'⟩

instance : IsTrans Booking checkinDesc :=
  ⟨fun _ _ _ h h' => le_trans h' h⟩

namespace MyBookings

/-- The branch structure of the loop body of `processBookings` in
`my-bookings.component.ts` (lines 328-345), as a per-booking bucket function:

    if (status === 'CONFIRMED' || status === 'PENDING') {
      if (checkinDate > today)                            → upcoming
      else if (checkinDate <= today && checkoutDate >= today) → current
      else                                                → past
    } else                                                → past
-/
def classifyBooking (today : Int) (b : Booking) : Bucket :=
  if b.isBookingStatus = "CONFIRMED" ∨ b.isBookingStatus = "PENDING" then
    if today < b.checkinDate then Bucket.upcoming
    else if b.checkinDate ≤ today ∧ today ≤ b.checkoutDate then Bucket.current
    else Bucket.past
  else Bucket.past

/-- The bucket fields of `MyBookingsComponent` touched by `processBookings`. -/
structure MyBookingsState where
  allBookings : List Booking
  upcomingBookings : List Booking
  currentBookings : List Booking
  pastBookings : List Booking
deriving DecidableEq, Repr

/-- `processBookings` of `my-bookings.component.ts` (lines 320-358): resets the
three buckets, walks `allBookings` pushing each booking into the bucket chosen
by the branch embedded as `classifyBooking` (a `forEach` of pushes appends in
list order, i.e. filters), then sorts upcoming and current ascending and past
descending by check-in date.  `today` is the start-of-day snapshot captured
once at the top of the method. -/
def processBookings (s : MyBookingsState) (today : Int) : MyBookingsState :=
  { s with
    upcomingBookings :=
      List.insertionSort checkinAsc
        (s.allBookings.filter fun b => decide (classifyBooking today b = Bucket.upcoming))
    currentBookings :=
      List.insertionSort checkinAsc
        (s.allBookings.filter fun b => decide (classifyBooking today b = Bucket.current))
    pastBookings :=
      List.insertionSort checkinDesc
        (s.allBookings.filter fun b => decide (classifyBooking today b = Bucket.past)) }

/-! ### Cancellation / modification managers — `my-bookings.component.ts` -/

/-- An event hitting a manager: the user triggers the mutation (with the
outcome of the leading gate — `confirm(...)` for cancellation, form validity
plus a selected booking for modification), or an outstanding request completes
(successfully or not; both response branches clear the busy flag). -/
inductive MutEvent where
  | trigger (gatePassed : Bool)
  | complete (success : Bool)
deriving DecidableEq, Repr

/-- Manager state: the busy flag (`isCancelling` / `isModifying`) and the
number of requests currently in flight. -/
structure MgrState where
  busy : Bool
  inFlight : Nat
deriving DecidableEq, Repr

/-- Modelled from the spec: the component template
(`my-bookings.component.html`, not under `src/`) disables the cancel / modify
triggers while the corresponding busy flag is set, so the methods are not
re-entered while a request is outstanding ("Both managers must disable
re-entry while a request is outstanding"). -/
def triggerEnabled (s : MgrState) : Bool := !s.busy

/-- One step of a manager, combining the template gate with the method bodies
`cancelBooking` (lines 211-236) and `submitModifyBooking` (lines 262-298): a
trigger whose gate fails (declined `confirm`, invalid form, no selection)
returns without issuing anything; an allowed trigger sets the busy flag
synchronously and issues the request; a completing response clears the flag in
both its branches. -/
def mgrStep (s : MgrState) (e : MutEvent) : MgrState :=
  match e with
  | MutEvent.trigger gatePassed =>
    if triggerEnabled s = false then s
    else if gatePassed = false then s
    else { busy := true, inFlight := s.inFlight + 1 }
  | MutEvent.complete _ =>
    if s.inFlight = 0 then s
    else { busy := false, inFlight := s.inFlight - 1 }

/-- A manager starts idle with nothing in flight. -/
def mgrInit : MgrState := { busy := false, inFlight := 0 }

/-- Run a manager over a sequence of events. -/
def mgrRun (events : List MutEvent) : MgrState :=
  events.foldl mgrStep mgrInit

end MyBookings

namespace ClientDashboard

/-- The condition of `processBookings` in `client-dashboard.component.ts`
(lines 335-339) selecting the dashboard's "upcoming" list:

    (status === 'CONFIRMED' || status === 'PENDING') && checkinDate >= today
-/
def upcomingPred (today : Int) (b : Booking) : Bool :=
  decide ((b.isBookingStatus = "CONFIRMED" ∨ b.isBookingStatus = "PENDING")
    ∧ today ≤ b.checkinDate)

/-- The booking fields of `ClientDashboardComponent` touched by
`processBookings`. -/
structure DashboardState where
  allBookings : List Booking
  upcomingBookings : List Booking
  pastBookings : List Booking
  recentBookings : List Booking
deriving DecidableEq, Repr

/-- `processBookings` of `client-dashboard.component.ts` (lines 321-369):
rebuilds `upcomingBookings` (matching bookings, ascending by check-in) and
`pastBookings` (all the rest, descending by check-in), then sets
`recentBookings` to a copy of the full list sorted descending by check-in,
truncated to the first 5. -/
def processBookings (s : DashboardState) (today : Int) : DashboardState :=
  { s with
    upcomingBookings :=
      List.insertionSort checkinAsc (s.allBookings.filter (upcomingPred today))
    pastBookings :=
      List.insertionSort checkinDesc (s.allBookings.filter fun b => !upcomingPred today b)
    recentBookings :=
      (List.insertionSort checkinDesc s.allBookings).take 5 }

end ClientDashboard

/-! ## Two-phase pay-then-reserve — `payment-page.component.ts` -/

namespace PaymentPage

/-- The navigation-state payload carried into the payment page (the fields the
two requests read). -/
structure PaymentData where
  propertyId : Int
  userId : Int
  bookingId : Option Int
  checkinDate : String
  checkoutDate : String
  hasExtraCot : Bool
  hasDeepClean : Bool
  totalAmount : Int
deriving DecidableEq, Repr

/-- Outcome of one external HTTP call: either a response body, or an
`HttpErrorResponse` with its status and the optional server-supplied
`error.message`. -/
inductive CallResult (α : Type) where
  | ok (value : α)
  | httpError (status : Int) (serverMessage : Option String)
deriving DecidableEq, Repr

/-- A request issued by the payment page: the charge POST of `processPayment`
or the booking-creation POST of `makeBooking`, with their payloads. -/
inductive ExtCall where
  | paymentPost (bookingId : Option Int) (userId : Int) (accountNumber : String)
      (amount : Int)
  | bookingPost (propertyId : Int) (userId : Int) (checkinDate : String)
      (checkoutDate : String) (hasExtraCot : Bool) (hasDeepClean : Bool)
deriving DecidableEq, Repr

/-- Whether a request is the booking-creation POST. -/
def ExtCall.isBookingPost : ExtCall → Bool
  | ExtCall.bookingPost _ _ _ _ _ _ => true
  | ExtCall.paymentPost _ _ _ _ => false

/-- The two message fields of `PaymentPageComponent`. -/
structure UiState where
  errorMessage : String
  successMessage : String
deriving DecidableEq, Repr

/-- Initial message state of the component. -/
def uiInit : UiState := { errorMessage := "", successMessage := "" }

/-- `showError` of `payment-page.component.ts`: sets `errorMessage`, clears
`successMessage`. -/
def showErrorU (ui : UiState) (message : String) : UiState :=
  { ui with errorMessage := message, successMessage := "" }

/-- `showSuccess` of `payment-page.component.ts`: sets `successMessage`,
clears `errorMessage`. -/
def showSuccessU (ui : UiState) (message : String) : UiState :=
  { ui with successMessage := message, errorMessage := "" }

/-- The message chosen by `handleError` of `payment-page.component.ts`
(lines 244-257), shared by the charge call and the booking-creation call:

    status 0    → connectivity message
    status 401  → authorization message
    status ≥500 → server message
    otherwise   → error.error?.message or the generic default
-/
def handleErrorMessage (status : Int) (serverMessage : Option String) : String :=
  if status = 0 then "Cannot connect to server. Please check if the backend is running."
  else if status = 401 then "Unauthorized. Please login again."
  else if 500 ≤ status then "Server error. Please try again later."
  else serverMessage.getD "An unexpected error occurred."

/-- `handleError` assigns `errorMessage` directly, leaving `successMessage`
as it was. -/
def handleErrorU (ui : UiState) (status : Int) (serverMessage : Option String) :
    UiState :=
  { ui with errorMessage := handleErrorMessage status serverMessage }

/-- `accountNumber.trim()`: leading and trailing whitespace removed.  Embedded
as structural recursion over the character list so that concrete inputs
compute inside the kernel. -/
def jsTrim (s : String) : String :=
  ⟨((s.data.dropWhile Char.isWhitespace).reverse.dropWhile Char.isWhitespace).reverse⟩

/-- The result of one reservation attempt: the requests issued, in order, and
the final message state. -/
structure AttemptResult where
  calls : List ExtCall
  ui : UiState
deriving DecidableEq, Repr

/-- `processPayment` of `payment-page.component.ts` (lines 130-173) together
with the `makeBooking` continuation (lines 175-207), with the outcome of each
external call passed explicitly.  Control flow of the source:

* empty (or all-blank) account number → local error, no call;
* missing `paymentData` → local error, no call;
* charge POST issued; response `false` → `showError('Payment processing failed')`;
  HTTP error → `handleError`; response `true` →
  `showSuccess('Payment processed successfully!')` then `makeBooking()`:
  booking POST issued; envelope `success: false` →
  `showError('Booking confirmation failed.')`; HTTP error → `handleError`;
  envelope `success: true` → `showSuccess('Booking confirmed successfully!')`.

(`bookingId || undefined` collapses a zero id to `undefined`.)
-/
def processPayment (accountNumber : String) (paymentData : Option PaymentData)
    (chargeResult : CallResult Bool) (reserveResult : CallResult Bool) :
    AttemptResult :=
  if jsTrim accountNumber = "" then
    { calls := [], ui := showErrorU uiInit "Please enter your account number" }
  else
    match paymentData with
    | none => { calls := [], ui := showErrorU uiInit "Payment data is missing" }
    | some pd =>
      let chargeCall : ExtCall :=
        ExtCall.paymentPost
          (match pd.bookingId with
           | some v => if v = 0 then none else some v
           | none => none)
          pd.userId (jsTrim accountNumber) pd.totalAmount
      match chargeResult with
      | CallResult.ok false =>
        { calls := [chargeCall], ui := showErrorU uiInit "Payment processing failed" }
      | CallResult.httpError status msg =>
        { calls := [chargeCall], ui := handleErrorU uiInit status msg }
      | CallResult.ok true =>
        let ui1 := showSuccessU uiInit "Payment processed successfully!"
        let bookingCall : ExtCall :=
          ExtCall.bookingPost pd.propertyId pd.userId pd.checkinDate
            pd.checkoutDate pd.hasExtraCot pd.hasDeepClean
        match reserveResult with
        | CallResult.ok true =>
          { calls := [chargeCall, bookingCall],
            ui := showSuccessU ui1 "Booking confirmed successfully!" }
        | CallResult.ok false =>
          { calls := [chargeCall, bookingCall],
            ui := showErrorU ui1 "Booking confirmation failed." }
        | CallResult.httpError status msg =>
          { calls := [chargeCall, bookingCall],
            ui := handleErrorU ui1 status msg }

end PaymentPage

/-! ## Concrete test fixtures

Day indices count days since 1970-01-01, matching the start-of-day values the
components compare: 2025-05-01 = 20209, 2025-05-05 = 20213, 2025-05-28 =
20236, 2025-06-01 = 20240, 2025-06-03 = 20242, 2025-06-05 = 20244,
2025-06-08 = 20247, 2030-01-01 = 21915. -/

/-- A payment payload as built by `submitBooking` of the property page. -/
def pdSample : PaymentPage.PaymentData :=
  { propertyId := 7, userId := 3, bookingId := none,
    checkinDate := "2025-06-05", checkoutDate := "2025-06-08",
    hasExtraCot := false, hasDeepClean := true, totalAmount := 6000 }

/-- CONFIRMED, 2025-06-05 → 2025-06-08 (upcoming when today = 2025-06-01). -/
def bUp : Booking := ⟨1, 20244, 20247, "CONFIRMED", true⟩

/-- CONFIRMED, 2025-05-28 → 2025-06-03 (current when today = 2025-06-01). -/
def bCur : Booking := ⟨2, 20236, 20242, "CONFIRMED", true⟩

/-- CONFIRMED, 2025-05-01 → 2025-05-05 (past when today = 2025-06-01). -/
def bPast : Booking := ⟨3, 20209, 20213, "CONFIRMED", true⟩

/-- CANCELLED with far-future dates, 2030-01-01 → 2030-01-06. -/
def bCancelled2030 : Booking := ⟨4, 21915, 21920, "CANCELLED", true⟩

/-- CONFIRMED with check-in exactly on today = 2025-06-01. -/
def bBoundary : Booking := ⟨5, 20240, 20243, "CONFIRMED", true⟩

/-- PENDING, far ahead. -/
def bPend : Booking := ⟨6, 20300, 20305, "PENDING", false⟩

/-- COMPLETED, in the past. -/
def bComp : Booking := ⟨7, 20100, 20104, "COMPLETED", true⟩

/-- A seven-element booking list covering every status and bucket. -/
def bookings7 : List Booking :=
  [bUp, bCur, bPast, bCancelled2030, bBoundary, bPend, bComp]

/-- Bookings-view component state freshly loaded with `bookings7`. -/
def mbState0 : MyBookings.MyBookingsState := ⟨bookings7, [], [], []⟩

/-- The same loaded list but with stale leftover buckets. -/
def mbState1 : MyBookings.MyBookingsState := ⟨bookings7, [bUp], [bCur], [bPast]⟩

/-- Dashboard component state freshly loaded with `bookings7`. -/
def dashState0 : ClientDashboard.DashboardState := ⟨bookings7, [], [], []⟩

/-! ## Theorems -/

/-- Helper: for an integer numerator and a positive natural denominator, the
rational ceiling of the quotient is the negated floor division of the negated
numerator. -/
theorem ceil_intCast_div_natCast_eq_neg_ediv_neg (n : ℤ) (d : ℕ) :
    ⌈(n : ℚ) / (d : ℚ)⌉ = -((-n) / (d : ℤ)) := by
  rw [← Rat.floor_intCast_div_natCast (-n) d, Int.cast_neg, neg_div, Int.floor_neg,
    neg_neg]

/-- Claim C3 (counterexample to the claim as stated): with today = day 10, the
pair check-in = 4, check-out = 3 is both inverted (checkout ≤ checkin) and in
the past (checkin < today), yet the validator reports only `invalidDateRange`;
`pastDate` is not reported, so the two violations are not reported at once. -/
theorem C3_counterexample :
    ((3 : Int) ≤ 4 ∧ (4 : Int) < 10)
    ∧ PropertyDetails.dateRangeValidator (some 4) (some 3) 10
        = some DateRangeIssue.invalidDateRange
    ∧ PropertyDetails.dateRangeValidator (some 4) (some 3) 10
        ≠ some DateRangeIssue.pastDate := by
  decide

/-- Claim C3 (amended): with both dates present, the validator reports
`InvalidRange` exactly when checkout ≤ checkin, independently of `PastCheckin`;
but the checks short-circuit: `PastCheckin` is reported exactly when the range
is valid and the check-in is before today's start of day, so an inverted
past pair reports only `InvalidRange`. -/
theorem C3_validator_range_iff (cin cout today : Int) :
    (PropertyDetails.dateRangeValidator (some cin) (some cout) today
        = some DateRangeIssue.invalidDateRange ↔ cout ≤ cin)
    ∧ (PropertyDetails.dateRangeValidator (some cin) (some cout) today
        = some DateRangeIssue.pastDate ↔ (cin < cout ∧ cin < today)) := by
  unfold PropertyDetails.dateRangeValidator
  dsimp only
  split_ifs with h1 h2 <;> simp_all

/-- Claim C6: `calculateNights` is the ceiling of the millisecond difference
divided by 86 400 000 (the spec-side `nightsCeilSpec`); nights(2025-01-10,
2025-01-13) = 3 (timestamps 1736467200000 and 1736726400000);
total(2000, 3) = 6000; and every valid range (checkout strictly after
check-in) yields at least one night. -/
theorem C6_nights_and_total :
    (∀ cin cout : Int,
        PropertyDetails.calculateNights cin cout
          = PropertyDetails.nightsCeilSpec cin cout)
    ∧ PropertyDetails.calculateNights 1736467200000 1736726400000 = 3
    ∧ PropertyDetails.calculateTotalPrice 2000 3 = 6000
    ∧ (∀ cin cout : Int, cin < cout →
        1 ≤ PropertyDetails.calculateNights cin cout) := by
  have hm : (0 : ℤ) ≤ PropertyDetails.msPerDay := by decide
  refine ⟨fun cin cout => ?_, by decide, by decide, fun cin cout h => ?_⟩
  · unfold PropertyDetails.calculateNights PropertyDetails.nightsCeilSpec
    rw [Int.fdiv_eq_ediv _ hm]
    have hcast : ((PropertyDetails.msPerDay : ℤ) : ℚ) = ((86400000 : ℕ) : ℚ) := by
      norm_num [PropertyDetails.msPerDay]
    have hnum : ((cout - cin : ℤ) : ℚ) = ((cout : ℚ) - (cin : ℚ)) := by push_cast; ring
    rw [hcast, ← hnum, ceil_intCast_div_natCast_eq_neg_ediv_neg]
    norm_num [PropertyDetails.msPerDay]
  · unfold PropertyDetails.calculateNights
    rw [Int.fdiv_eq_ediv _ hm]
    have hneg : -(cout - cin) < 0 := by omega
    have hpos : (0 : ℤ) < PropertyDetails.msPerDay := by decide
    have := Int.ediv_neg' hneg hpos
    omega

/-- Claim C6 witness: the general lower bound applied to the concrete valid
range 2025-01-10 → 2025-01-13. -/
theorem C6_nights_and_total_witness :
    (1736467200000 : Int) < 1736726400000
    ∧ 1 ≤ PropertyDetails.calculateNights 1736467200000 1736726400000 :=
  ⟨by decide, C6_nights_and_total.2.2.2 1736467200000 1736726400000 (by decide)⟩

/-- Claim C2: the booking-creation POST is issued precisely when the charge
call returned a settled (`true`) result (and the local pre-checks passed); in
particular a charge that answers `false`, or fails over HTTP, never leads to a
reservation-creation call. -/
theorem C2_reserve_only_after_settled_charge
    (accountNumber : String) (paymentData : Option PaymentPage.PaymentData)
    (chargeResult reserveResult : PaymentPage.CallResult Bool) :
    ((PaymentPage.processPayment accountNumber paymentData chargeResult
        reserveResult).calls.any PaymentPage.ExtCall.isBookingPost) = true
      ↔ (chargeResult = PaymentPage.CallResult.ok true
          ∧ PaymentPage.jsTrim accountNumber ≠ "" ∧ paymentData ≠ none) := by
  unfold PaymentPage.processPayment
  split_ifs with h
  · simp [h]
  · cases paymentData with
    | none => simp
    | some pd =>
      cases chargeResult with
      | ok settled =>
        cases settled with
        | false => simp [PaymentPage.ExtCall.isBookingPost, h]
        | true =>
          cases reserveResult with
          | ok rv => cases rv <;> simp [PaymentPage.ExtCall.isBookingPost, h]
          | httpError status msg => simp [PaymentPage.ExtCall.isBookingPost, h]
      | httpError status msg => simp [PaymentPage.ExtCall.isBookingPost, h]

/-- Claim C1 (counterexample to the claim as stated): an attempt in which the
charge settles and the booking-creation call then fails with HTTP status 500
surfaces exactly the same message as an attempt in which the charge call
itself fails with HTTP status 500 (the server-failure category) — money moved
in the first attempt and not in the second, yet the surfaced error is
identical, so no distinguishable partial-commit error exists. -/
theorem C1_counterexample :
    (PaymentPage.processPayment "1234" (some pdSample)
        (PaymentPage.CallResult.ok true)
        (PaymentPage.CallResult.httpError 500 none)).ui.errorMessage
      = (PaymentPage.processPayment "1234" (some pdSample)
          (PaymentPage.CallResult.httpError 500 none)
          (PaymentPage.CallResult.ok true)).ui.errorMessage
    ∧ (PaymentPage.processPayment "1234" (some pdSample)
        (PaymentPage.CallResult.ok true)
        (PaymentPage.CallResult.httpError 500 none)).ui.errorMessage
      = "Server error. Please try again later." := by
  constructor <;> rfl

/-- Claim C1 (amended): when the charge settles and the booking-creation call
answers with a `success: false` envelope, the surfaced message is the
dedicated string "Booking confirmation failed.", which differs from the fixed
connectivity, authorization, server and generic messages of the shared error
handler and from the failed-charge message; but when the booking-creation call
fails at the HTTP level it is routed through the same status-based handler as
charge failures, so the surfaced message coincides with the corresponding
ordinary failure category and no distinct partial-commit error is produced. -/
theorem C1_partial_commit_surfacing
    (accountNumber : String) (pd : PaymentPage.PaymentData)
    (h : ¬PaymentPage.jsTrim accountNumber = "") :
    ((PaymentPage.processPayment accountNumber (some pd)
        (PaymentPage.CallResult.ok true)
        (PaymentPage.CallResult.ok false)).ui.errorMessage
      = "Booking confirmation failed."
    ∧ "Booking confirmation failed."
        ≠ "Cannot connect to server. Please check if the backend is running."
    ∧ "Booking confirmation failed." ≠ "Unauthorized. Please login again."
    ∧ "Booking confirmation failed." ≠ "Server error. Please try again later."
    ∧ "Booking confirmation failed." ≠ "An unexpected error occurred."
    ∧ "Booking confirmation failed." ≠ "Payment processing failed")
    ∧ (∀ (status : Int) (serverMessage : Option String)
        (reserveResult : PaymentPage.CallResult Bool),
        (PaymentPage.processPayment accountNumber (some pd)
            (PaymentPage.CallResult.ok true)
            (PaymentPage.CallResult.httpError status serverMessage)).ui.errorMessage
          = (PaymentPage.processPayment accountNumber (some pd)
              (PaymentPage.CallResult.httpError status serverMessage)
              reserveResult).ui.errorMessage) := by
  constructor
  · refine ⟨?_, by decide, by decide, by decide, by decide, by decide⟩
    simp [PaymentPage.processPayment, h, PaymentPage.showErrorU,
      PaymentPage.showSuccessU, PaymentPage.uiInit]
  · intro status serverMessage reserveResult
    simp [PaymentPage.processPayment, h, PaymentPage.handleErrorU,
      PaymentPage.showSuccessU, PaymentPage.uiInit]

/-- Claim C1 witness: the amended statement at a concrete account number and
payload. -/
theorem C1_partial_commit_surfacing_witness :
    ¬(PaymentPage.jsTrim "1234" = "")
    ∧ (PaymentPage.processPayment "1234" (some pdSample)
        (PaymentPage.CallResult.ok true)
        (PaymentPage.CallResult.ok false)).ui.errorMessage
      = "Booking confirmation failed." :=
  ⟨by decide, (C1_partial_commit_surfacing "1234" pdSample (by decide)).1.1⟩

/-- Helper: membership in the rebuilt upcoming bucket of the bookings view. -/
theorem mem_myBookings_upcoming_iff (s : MyBookings.MyBookingsState) (today : Int)
    (b : Booking) :
    b ∈ (MyBookings.processBookings s today).upcomingBookings
      ↔ b ∈ s.allBookings
        ∧ MyBookings.classifyBooking today b = Bucket.upcoming := by
  simp [MyBookings.processBookings, List.mem_filter]

/-- Helper: membership in the rebuilt current bucket of the bookings view. -/
theorem mem_myBookings_current_iff (s : MyBookings.MyBookingsState) (today : Int)
    (b : Booking) :
    b ∈ (MyBookings.processBookings s today).currentBookings
      ↔ b ∈ s.allBookings
        ∧ MyBookings.classifyBooking today b = Bucket.current := by
  simp [MyBookings.processBookings, List.mem_filter]

/-- Helper: membership in the rebuilt past bucket of the bookings view. -/
theorem mem_myBookings_past_iff (s : MyBookings.MyBookingsState) (today : Int)
    (b : Booking) :
    b ∈ (MyBookings.processBookings s today).pastBookings
      ↔ b ∈ s.allBookings
        ∧ MyBookings.classifyBooking today b = Bucket.past := by
  simp [MyBookings.processBookings, List.mem_filter]

/-- Claim C4: against a single start-of-day snapshot, a CONFIRMED or PENDING
booking goes to upcoming when checkin > now, to current when
checkin ≤ now ≤ checkout, and to past otherwise; a CANCELLED or COMPLETED
booking always goes to past, regardless of its dates. -/
theorem C4_classifier_rule (today : Int) (b : Booking)
    (s : MyBookings.MyBookingsState) (hmem : b ∈ s.allBookings) :
    ((b.isBookingStatus = "CONFIRMED" ∨ b.isBookingStatus = "PENDING") →
      ((today < b.checkinDate →
          b ∈ (MyBookings.processBookings s today).upcomingBookings)
      ∧ (b.checkinDate ≤ today → today ≤ b.checkoutDate →
          b ∈ (MyBookings.processBookings s today).currentBookings)
      ∧ (b.checkinDate ≤ today → b.checkoutDate < today →
          b ∈ (MyBookings.processBookings s today).pastBookings)))
    ∧ ((b.isBookingStatus = "CANCELLED" ∨ b.isBookingStatus = "COMPLETED") →
        b ∈ (MyBookings.processBookings s today).pastBookings) := by
  refine ⟨fun hstat => ⟨fun h1 => ?_, fun h1 h2 => ?_, fun h1 h2 => ?_⟩,
    fun hstat => ?_⟩
  · rw [mem_myBookings_upcoming_iff]
    refine ⟨hmem, ?_⟩
    unfold MyBookings.classifyBooking
    rw [if_pos hstat, if_pos h1]
  · rw [mem_myBookings_current_iff]
    refine ⟨hmem, ?_⟩
    unfold MyBookings.classifyBooking
    rw [if_pos hstat, if_neg (by omega), if_pos ⟨h1, h2⟩]
  · rw [mem_myBookings_past_iff]
    refine ⟨hmem, ?_⟩
    unfold MyBookings.classifyBooking
    rw [if_pos hstat, if_neg (by omega), if_neg (fun hc => by omega)]
  · rw [mem_myBookings_past_iff]
    refine ⟨hmem, ?_⟩
    have hne : ¬(b.isBookingStatus = "CONFIRMED" ∨ b.isBookingStatus = "PENDING") := by
      rcases hstat with h | h <;> rw [h] <;> decide
    unfold MyBookings.classifyBooking
    rw [if_neg hne]

/-- Claim C4 witness: with today = 2025-06-01, the CANCELLED booking with
far-future check-in 2030-01-01 is bucketed as past. -/
theorem C4_classifier_rule_witness :
    bCancelled2030 ∈ mbState0.allBookings
    ∧ (bCancelled2030.isBookingStatus = "CANCELLED"
        ∨ bCancelled2030.isBookingStatus = "COMPLETED")
    ∧ bCancelled2030 ∈ (MyBookings.processBookings mbState0 20240).pastBookings :=
  ⟨by decide, by decide,
    (C4_classifier_rule 20240 bCancelled2030 mbState0 (by decide)).2 (by decide)⟩

/-- Claim C9: the classification pass is a deterministic function of the
loaded booking list and the frozen now snapshot — two component states with
the same loaded list produce identical buckets in identical order — and
re-running the pass on its own output changes nothing. -/
theorem C9_classifier_deterministic (s1 s2 : MyBookings.MyBookingsState)
    (today : Int) (h : s1.allBookings = s2.allBookings) :
    MyBookings.processBookings s1 today = MyBookings.processBookings s2 today
    ∧ MyBookings.processBookings (MyBookings.processBookings s1 today) today
        = MyBookings.processBookings s1 today := by
  constructor
  · cases s1 with
    | mk a1 u1 c1 p1 =>
      cases s2 with
      | mk a2 u2 c2 p2 =>
        have h2 : a1 = a2 := h
        subst h2
        rfl
  · rfl

/-- Claim C9 witness: a freshly loaded state and a state with stale leftover
buckets but the same loaded list classify identically. -/
theorem C9_classifier_deterministic_witness :
    mbState0.allBookings = mbState1.allBookings
    ∧ MyBookings.processBookings mbState0 20240
        = MyBookings.processBookings mbState1 20240 :=
  ⟨rfl, (C9_classifier_deterministic mbState0 mbState1 20240 rfl).1⟩

/-- Helper: membership in the dashboard's rebuilt upcoming list. -/
theorem mem_dash_upcoming_iff (s : ClientDashboard.DashboardState) (today : Int)
    (b : Booking) :
    b ∈ (ClientDashboard.processBookings s today).upcomingBookings
      ↔ b ∈ s.allBookings ∧ ClientDashboard.upcomingPred today b = true := by
  simp [ClientDashboard.processBookings, List.mem_filter]

/-- Helper: membership in the dashboard's rebuilt past list. -/
theorem mem_dash_past_iff (s : ClientDashboard.DashboardState) (today : Int)
    (b : Booking) :
    b ∈ (ClientDashboard.processBookings s today).pastBookings
      ↔ b ∈ s.allBookings ∧ ClientDashboard.upcomingPred today b = false := by
  simp [ClientDashboard.processBookings, List.mem_filter]

/-- Claim C8: the dashboard's recent view is the full loaded list sorted
descending by check-in and truncated to the first 5, independent of buckets,
statuses and even of the now snapshot: on any 7-element list it has exactly 5
entries, is sorted descending by check-in, and any state with the same loaded
list (classified against any other now) yields the same recent view. -/
theorem C8_recent_view (s : ClientDashboard.DashboardState) (today : Int)
    (h : s.allBookings.length = 7) :
    (ClientDashboard.processBookings s today).recentBookings.length = 5
    ∧ List.Pairwise checkinDesc
        (ClientDashboard.processBookings s today).recentBookings
    ∧ ∀ (s2 : ClientDashboard.DashboardState) (today2 : Int),
        s2.allBookings = s.allBookings →
        (ClientDashboard.processBookings s2 today2).recentBookings
          = (ClientDashboard.processBookings s today).recentBookings := by
  refine ⟨?_, ?_, ?_⟩
  · simp [ClientDashboard.processBookings, List.length_take, h]
  · exact List.Pairwise.sublist (List.take_sublist 5 _)
      (List.sorted_insertionSort checkinDesc s.allBookings)
  · intro s2 today2 he
    simp [ClientDashboard.processBookings, he]

/-- Claim C8 witness: the recent view of the concrete 7-booking dashboard
state has exactly 5 entries. -/
theorem C8_recent_view_witness :
    dashState0.allBookings.length = 7
    ∧ (ClientDashboard.processBookings dashState0 20240).recentBookings.length = 5 :=
  ⟨by decide, (C8_recent_view dashState0 20240 (by decide)).1⟩

/-- Claim C10: the dashboard classification puts every loaded booking in
exactly one of its two lists, and its upcoming guard is checkin ≥ today (not
strictly greater): a CONFIRMED or PENDING booking whose check-in is exactly
today lands in the dashboard's upcoming list, while the three-bucket
classifier of the bookings view puts the same booking in current — the two
views disagree at the day boundary. -/
theorem C10_dashboard_day_boundary (s : ClientDashboard.DashboardState)
    (today : Int) (b : Booking) (hmem : b ∈ s.allBookings) :
    ((b ∈ (ClientDashboard.processBookings s today).upcomingBookings
        ∨ b ∈ (ClientDashboard.processBookings s today).pastBookings)
    ∧ ¬(b ∈ (ClientDashboard.processBookings s today).upcomingBookings
        ∧ b ∈ (ClientDashboard.processBookings s today).pastBookings))
    ∧ ((b.isBookingStatus = "CONFIRMED" ∨ b.isBookingStatus = "PENDING") →
        b.checkinDate = today → today ≤ b.checkoutDate →
        (b ∈ (ClientDashboard.processBookings s today).upcomingBookings
         ∧ MyBookings.classifyBooking today b = Bucket.current)) := by
  constructor
  · constructor
    · cases hp : ClientDashboard.upcomingPred today b
      · exact Or.inr ((mem_dash_past_iff s today b).2 ⟨hmem, hp⟩)
      · exact Or.inl ((mem_dash_upcoming_iff s today b).2 ⟨hmem, hp⟩)
    · rintro ⟨hu, hp⟩
      rw [mem_dash_upcoming_iff] at hu
      rw [mem_dash_past_iff] at hp
      rw [hu.2] at hp
      exact absurd hp.2 (by decide)
  · intro hstat hcin hcout
    constructor
    · refine (mem_dash_upcoming_iff s today b).2 ⟨hmem, ?_⟩
      unfold ClientDashboard.upcomingPred
      simp only [decide_eq_true_eq]
      exact ⟨hstat, by omega⟩
    · unfold MyBookings.classifyBooking
      rw [if_pos hstat, if_neg (by omega), if_pos ⟨by omega, hcout⟩]

/-- Claim C10 witness: the CONFIRMED booking with check-in exactly on
today = 2025-06-01 is in the dashboard's upcoming list and in the bookings
view's current bucket. -/
theorem C10_dashboard_day_boundary_witness :
    bBoundary ∈ dashState0.allBookings
    ∧ (bBoundary ∈ (ClientDashboard.processBookings dashState0 20240).upcomingBookings
       ∧ MyBookings.classifyBooking 20240 bBoundary = Bucket.current) :=
  ⟨by decide,
    (C10_dashboard_day_boundary dashState0 20240 bBoundary (by decide)).2
      (by decide) (by decide) (by decide)⟩

/-- Claim C5: at the Dates step, the transition to Add-ons is guarded by the
date-range validation: a missing date, an inverted range or a past check-in
each leave the step unchanged and surface their own distinct message, and the
step advances to Add-ons exactly when both dates are present and the
validator passes. -/
theorem C5_stepper_dates_guard (st : PropertyDetails.StepperState) (today : Int)
    (h0 : st.currentStep = 0) :
    ((st.form.checkinDate = none ∨ st.form.checkoutDate = none) →
        ((PropertyDetails.nextStep st today).1.currentStep = 0
        ∧ (PropertyDetails.nextStep st today).1.errorMessage
            = "Please select both check-in and check-out dates"))
    ∧ (PropertyDetails.dateRangeValidator st.form.checkinDate
          st.form.checkoutDate today = some DateRangeIssue.invalidDateRange →
        ((PropertyDetails.nextStep st today).1.currentStep = 0
        ∧ (PropertyDetails.nextStep st today).1.errorMessage
            = "Check-out date must be after check-in date"))
    ∧ (PropertyDetails.dateRangeValidator st.form.checkinDate
          st.form.checkoutDate today = some DateRangeIssue.pastDate →
        ((PropertyDetails.nextStep st today).1.currentStep = 0
        ∧ (PropertyDetails.nextStep st today).1.errorMessage
            = "Check-in date cannot be in the past"))
    ∧ ((PropertyDetails.nextStep st today).1.currentStep = 1
        ↔ ((∃ cin, st.form.checkinDate = some cin)
           ∧ (∃ cout, st.form.checkoutDate = some cout)
           ∧ PropertyDetails.dateRangeValidator st.form.checkinDate
               st.form.checkoutDate today = none))
    ∧ ("Please select both check-in and check-out dates"
          ≠ "Check-out date must be after check-in date"
       ∧ "Please select both check-in and check-out dates"
          ≠ "Check-in date cannot be in the past"
       ∧ "Check-out date must be after check-in date"
          ≠ "Check-in date cannot be in the past") := by
  rcases hcin : st.form.checkinDate with _ | cin
  · simp_all [PropertyDetails.nextStep, PropertyDetails.showError,
      PropertyDetails.dateRangeValidator]
  · rcases hcout : st.form.checkoutDate with _ | cout
    · simp_all [PropertyDetails.nextStep, PropertyDetails.showError,
        PropertyDetails.dateRangeValidator]
    · rcases hv : PropertyDetails.dateRangeValidator (some cin) (some cout) today
        with _ | issue
      · simp_all [PropertyDetails.nextStep, PropertyDetails.showError]
      · cases issue <;>
          simp_all [PropertyDetails.nextStep, PropertyDetails.showError]

/-- Claim C5 witness: the guard at a concrete state — Dates step with an
inverted range (check-in day 20244, check-out day 20243) stays at step 0 and
surfaces the range message. -/
theorem C5_stepper_dates_guard_witness :
    ({ currentStep := 0,
       form := { checkinDate := some 20244, checkoutDate := some 20243,
                 hasExtraCot := false, hasDeepClean := false },
       errorMessage := "", successMessage := "" } :
        PropertyDetails.StepperState).currentStep = 0
    ∧ ((PropertyDetails.nextStep
          { currentStep := 0,
            form := { checkinDate := some 20244, checkoutDate := some 20243,
                      hasExtraCot := false, hasDeepClean := false },
            errorMessage := "", successMessage := "" } 20240).1.currentStep = 0
       ∧ (PropertyDetails.nextStep
          { currentStep := 0,
            form := { checkinDate := some 20244, checkoutDate := some 20243,
                      hasExtraCot := false, hasDeepClean := false },
            errorMessage := "", successMessage := "" } 20240).1.errorMessage
          = "Check-out date must be after check-in date") :=
  ⟨rfl,
    (C5_stepper_dates_guard
      { currentStep := 0,
        form := { checkinDate := some 20244, checkoutDate := some 20243,
                  hasExtraCot := false, hasDeepClean := false },
        errorMessage := "", successMessage := "" } 20240 rfl).2.1 (by decide)⟩

/-- Helper: the busy-flag invariant of a manager — at most one request in
flight, and none while idle — is preserved along any event sequence. -/
theorem mgrFoldl_invariant :
    ∀ (es : List MyBookings.MutEvent) (s : MyBookings.MgrState),
      s.inFlight ≤ 1 → (s.busy = false → s.inFlight = 0) →
      ((es.foldl MyBookings.mgrStep s).inFlight ≤ 1
       ∧ ((es.foldl MyBookings.mgrStep s).busy = false →
            (es.foldl MyBookings.mgrStep s).inFlight = 0))
  | [], _, h1, h2 => ⟨h1, h2⟩
  | e :: es, s, h1, h2 => by
    have hstep : (MyBookings.mgrStep s e).inFlight ≤ 1
        ∧ ((MyBookings.mgrStep s e).busy = false →
            (MyBookings.mgrStep s e).inFlight = 0) := by
      cases e with
      | trigger g =>
        unfold MyBookings.mgrStep MyBookings.triggerEnabled
        cases hb : s.busy <;> cases g <;> simp_all
      | complete ok =>
        simp only [MyBookings.mgrStep]
        split_ifs with hz <;> constructor <;> simp_all
    exact mgrFoldl_invariant es _ hstep.1 hstep.2

/-- Claim C7: along any sequence of trigger/completion events, a manager never
has more than one mutation request in flight, and any step that issues a
request (the in-flight count rises) was taken from a non-busy state and sets
the busy flag in that same synchronous step. -/
theorem C7_single_inflight :
    (∀ events : List MyBookings.MutEvent,
        (MyBookings.mgrRun events).inFlight ≤ 1)
    ∧ (∀ (s : MyBookings.MgrState) (e : MyBookings.MutEvent),
        s.inFlight < (MyBookings.mgrStep s e).inFlight →
          ((MyBookings.mgrStep s e).busy = true ∧ s.busy = false)) := by
  constructor
  · intro events
    exact (mgrFoldl_invariant events MyBookings.mgrInit (by decide) (by decide)).1
  · intro s e h
    cases e with
    | trigger g =>
      cases hb : s.busy <;> cases g <;>
        simp_all [MyBookings.mgrStep, MyBookings.triggerEnabled]
    | complete ok =>
      simp only [MyBookings.mgrStep] at h
      split_ifs at h <;> [omega; (dsimp only at h; omega)]

/-- Claim C7 witness: a rapid double trigger followed by a completion and a
new trigger keeps at most one request in flight, and the first trigger both
issues a request and sets the busy flag from the idle state. -/
theorem C7_single_inflight_witness :
    (MyBookings.mgrRun
        [MyBookings.MutEvent.trigger true, MyBookings.MutEvent.trigger true,
         MyBookings.MutEvent.complete true,
         MyBookings.MutEvent.trigger true]).inFlight ≤ 1
    ∧ MyBookings.mgrInit.inFlight
        < (MyBookings.mgrStep MyBookings.mgrInit
            (MyBookings.MutEvent.trigger true)).inFlight
    ∧ ((MyBookings.mgrStep MyBookings.mgrInit
          (MyBookings.MutEvent.trigger true)).busy = true
       ∧ MyBookings.mgrInit.busy = false) :=
  ⟨C7_single_inflight.1
      [MyBookings.MutEvent.trigger true, MyBookings.MutEvent.trigger true,
       MyBookings.MutEvent.complete true, MyBookings.MutEvent.trigger true],
    by decide,
    C7_single_inflight.2 MyBookings.mgrInit (MyBookings.MutEvent.trigger true)
      (by decide)⟩

end SpaceFinders
